import Mathlib

/-!
Verification of the maintenance alert and notification engine of the
`trucks` fleet-management repository.

The definitions below are a shallow embedding of the JavaScript/TypeScript
source: timestamps are integers (milliseconds since the epoch), Firestore
documents are Lean structures, optional document fields are `Option`, and
code that can throw returns `Except String`.  Locale-dependent display
formatting (`toLocaleString`, `toLocaleDateString`) is abstracted to plain
decimal rendering; a call of `toLocaleString` on an absent (undefined)
field is modelled as the `TypeError` it raises in JavaScript.
-/

/-- Severity of a maintenance alert (`priority` in the source). -/
inductive Priority where
  | overdue : Priority
  | dueSoon : Priority
deriving Repr, DecidableEq

/-- One transient maintenance alert, as pushed by `checkMaintenanceDue`. -/
structure Alert where
  type : String
  message : String
  priority : Priority
deriving Repr, DecidableEq

/-- A Firestore truck document, restricted to the fields the maintenance
engine reads or writes.  Optional Firestore fields are `Option`. -/
structure Truck where
  id : String
  unitNumber : String
  status : String
  outOfServiceReason : Option String
  mileage : Nat
  lastOilChange : Option Int
  lastOilChangeMileage : Option Nat
  inspectionStickerExpiry : Option Int
  oemsInspectionExpiry : Option Int
  lastBrakeChange : Option Int
  lastBrakeChangeMileage : Option Nat
  lastTireChange : Option Int
  lastTireChangeMileage : Option Nat
  alertsCleared : List (String × Int)
  lastMaintenanceAlertSent : Option Int
  updatedAt : Int
  updatedBy : String
deriving Repr, DecidableEq

/-- The alert-kind keys used in `alertsCleared` and `clearMaintenanceAlert`. -/
def oilChangeKey : String := "oilChange"

def inspectionKey : String := "inspection"

def oemsInspectionKey : String := "oemsInspection"

def brakeChangeKey : String := "brakeChange"

def tireChangeKey : String := "tireChange"

/-- The `type` strings of the alerts pushed by `checkMaintenanceDue`. -/
def oilAlertType : String := "🛢️ Oil Change"

def inspectionAlertType : String := "📋 WV Inspection"

def oemsAlertType : String := "🏥 OEMS Inspection"

def brakeAlertType : String := "🛑 Brake Service"

def tireAlertType : String := "🛞 Tire Service"

def outOfServiceStatus : String := "out-of-service"

/-- Lookup in the `alertsCleared` map (a JS object keyed by alert kind). -/
def lookupCleared : List (String × Int) → String → Option Int
  | [], _ => none
  | (k, v) :: rest, key => if k = key then some v else lookupCleared rest key

/-- The JS object spread `{ ...m, [key]: v }`: replaces the value of `key`
if present, otherwise adds the binding. -/
def insertCleared (m : List (String × Int)) (key : String) (v : Int) :
    List (String × Int) :=
  if (lookupCleared m key).isSome then
    m.map (fun p => if p.1 = key then (key, v) else p)
  else m ++ [(key, v)]

/-- `new Date(now.getTime() - 7 * 24 * 60 * 60 * 1000)` in `checkMaintenanceDue`. -/
def sevenDaysAgoOf (now : Int) : Int := now - 7 * 24 * 60 * 60 * 1000

/-- `Math.ceil(a / b)` for integer millisecond quantities. -/
def ceilDiv (a b : Int) : Int := -((-a).fdiv b)

/-- The message raised by calling `.toLocaleString()` on an undefined field. -/
def jsUndefinedError : String :=
  "TypeError: Cannot read properties of undefined (reading toLocaleString)"

/-- `n.toLocaleString()` on a possibly-undefined numeric field: throws when
the field is absent (formatting abstracted to decimal). -/
def toLocaleStringOf : Option Nat → Except String String
  | none => Except.error jsUndefinedError
  | some n => Except.ok (toString n)

/-- `formatDate(date)`: `N/A` for an absent date (date rendering abstracted
to the decimal millisecond value). -/
def formatDate : Option Int → String
  | none => "N/A"
  | some d => toString d

/-- `truck.outOfServiceReason || fallback` (the empty string is falsy in JS). -/
def jsStringOr (s : Option String) (fallback : String) : String :=
  match s with
  | some str => if str = "" then fallback else str
  | none => fallback

/-- The helper `isAlertClearedRecently(alertType)` inside `checkMaintenanceDue`:
an alert kind counts as recently cleared iff its cleared timestamp exists and
is strictly later than `sevenDaysAgo`. -/
def isAlertClearedRecently (truck : Truck) (sevenDaysAgo : Int)
    (alertType : String) : Bool :=
  match lookupCleared truck.alertsCleared alertType with
  | none => false
  | some cleared => sevenDaysAgo < cleared

/-- Oil-change section of `checkMaintenanceDue` (interval 5000, margin 500).
Returns the alerts pushed and the value of the `hasOverdue` contribution. -/
def oilCheck (truck : Truck) (sevenDaysAgo : Int) :
    Except String (List Alert × Bool) :=
  let nextOilChangeMileage := truck.lastOilChangeMileage.getD 0 + 5000
  if truck.mileage ≥ nextOilChangeMileage ∧
      isAlertClearedRecently truck sevenDaysAgo oilChangeKey = false then
    match truck.lastOilChangeMileage with
    | none => Except.error jsUndefinedError
    | some lastOil =>
      Except.ok ([⟨oilAlertType,
        "Overdue by " ++ toString (truck.mileage - nextOilChangeMileage) ++
        " miles. Last changed at " ++ toString lastOil ++ " on " ++
        formatDate truck.lastOilChange ++ ". Next due at " ++
        toString nextOilChangeMileage ++ " miles.", Priority.overdue⟩], true)
  else if truck.mileage ≥ nextOilChangeMileage - 500 ∧
      isAlertClearedRecently truck sevenDaysAgo oilChangeKey = false then
    match truck.lastOilChangeMileage with
    | none => Except.error jsUndefinedError
    | some lastOil =>
      Except.ok ([⟨oilAlertType,
        "Due in " ++ toString (nextOilChangeMileage - truck.mileage) ++
        " miles. Last changed at " ++ toString lastOil ++ " on " ++
        formatDate truck.lastOilChange ++ ". Next due at " ++
        toString nextOilChangeMileage ++ " miles.", Priority.dueSoon⟩], false)
  else Except.ok ([], false)

/-- WV inspection section of `checkMaintenanceDue` (30-day warning window).
Skipped silently when `inspectionStickerExpiry` is absent. -/
def inspectionCheck (truck : Truck) (sevenDaysAgo now : Int) :
    List Alert × Bool :=
  match truck.inspectionStickerExpiry with
  | none => ([], false)
  | some expiry =>
    if isAlertClearedRecently truck sevenDaysAgo inspectionKey = true then
      ([], false)
    else
      let daysUntilExpiry := ceilDiv (expiry - now) (1000 * 60 * 60 * 24)
      if daysUntilExpiry ≤ 0 then
        ([⟨inspectionAlertType,
          "Expired on " ++ formatDate (some expiry) ++ ".",
          Priority.overdue⟩], true)
      else if daysUntilExpiry ≤ 30 then
        ([⟨inspectionAlertType,
          "Expires in " ++ toString daysUntilExpiry ++ " days on " ++
          formatDate (some expiry) ++ ".", Priority.dueSoon⟩], false)
      else ([], false)

/-- OEMS inspection section of `checkMaintenanceDue` (30-day warning window). -/
def oemsCheck (truck : Truck) (sevenDaysAgo now : Int) :
    List Alert × Bool :=
  match truck.oemsInspectionExpiry with
  | none => ([], false)
  | some expiry =>
    if isAlertClearedRecently truck sevenDaysAgo oemsInspectionKey = true then
      ([], false)
    else
      let daysUntilExpiry := ceilDiv (expiry - now) (1000 * 60 * 60 * 24)
      if daysUntilExpiry ≤ 0 then
        ([⟨oemsAlertType,
          "Expired on " ++ formatDate (some expiry) ++ ".",
          Priority.overdue⟩], true)
      else if daysUntilExpiry ≤ 30 then
        ([⟨oemsAlertType,
          "Expires in " ++ toString daysUntilExpiry ++ " days on " ++
          formatDate (some expiry) ++ ".", Priority.dueSoon⟩], false)
      else ([], false)

/-- Brake section of `checkMaintenanceDue` (interval 25000, margin 2500);
`hasOverdue` is only set when more than 1000 miles overdue. -/
def brakeCheck (truck : Truck) (sevenDaysAgo : Int) :
    Except String (List Alert × Bool) :=
  let nextBrakeChangeMileage := truck.lastBrakeChangeMileage.getD 0 + 25000
  if truck.mileage ≥ nextBrakeChangeMileage ∧
      isAlertClearedRecently truck sevenDaysAgo brakeChangeKey = false then
    match truck.lastBrakeChangeMileage with
    | none => Except.error jsUndefinedError
    | some lastBrake =>
      Except.ok ([⟨brakeAlertType,
        "Overdue by " ++ toString (truck.mileage - nextBrakeChangeMileage) ++
        " miles. Last changed at " ++ toString lastBrake ++ " on " ++
        formatDate truck.lastBrakeChange ++ ". Next due at " ++
        toString nextBrakeChangeMileage ++ " miles.", Priority.overdue⟩],
        decide (truck.mileage - nextBrakeChangeMileage > 1000))
  else if truck.mileage ≥ nextBrakeChangeMileage - 2500 ∧
      isAlertClearedRecently truck sevenDaysAgo brakeChangeKey = false then
    match truck.lastBrakeChangeMileage with
    | none => Except.error jsUndefinedError
    | some lastBrake =>
      Except.ok ([⟨brakeAlertType,
        "Due in " ++ toString (nextBrakeChangeMileage - truck.mileage) ++
        " miles. Last changed at " ++ toString lastBrake ++ " on " ++
        formatDate truck.lastBrakeChange ++ ". Next due at " ++
        toString nextBrakeChangeMileage ++ " miles.", Priority.dueSoon⟩], false)
  else Except.ok ([], false)

/-- Tire section of `checkMaintenanceDue` (interval 40000, margin 4000);
`hasOverdue` is only set when more than 2000 miles overdue. -/
def tireCheck (truck : Truck) (sevenDaysAgo : Int) :
    Except String (List Alert × Bool) :=
  let nextTireChangeMileage := truck.lastTireChangeMileage.getD 0 + 40000
  if truck.mileage ≥ nextTireChangeMileage ∧
      isAlertClearedRecently truck sevenDaysAgo tireChangeKey = false then
    match truck.lastTireChangeMileage with
    | none => Except.error jsUndefinedError
    | some lastTire =>
      Except.ok ([⟨tireAlertType,
        "Overdue by " ++ toString (truck.mileage - nextTireChangeMileage) ++
        " miles. Last changed at " ++ toString lastTire ++ " on " ++
        formatDate truck.lastTireChange ++ ". Next due at " ++
        toString nextTireChangeMileage ++ " miles.", Priority.overdue⟩],
        decide (truck.mileage - nextTireChangeMileage > 2000))
  else if truck.mileage ≥ nextTireChangeMileage - 4000 ∧
      isAlertClearedRecently truck sevenDaysAgo tireChangeKey = false then
    match truck.lastTireChangeMileage with
    | none => Except.error jsUndefinedError
    | some lastTire =>
      Except.ok ([⟨tireAlertType,
        "Due in " ++ toString (nextTireChangeMileage - truck.mileage) ++
        " miles. Last changed at " ++ toString lastTire ++ " on " ++
        formatDate truck.lastTireChange ++ ". Next due at " ++
        toString nextTireChangeMileage ++ " miles.", Priority.dueSoon⟩], false)
  else Except.ok ([], false)

/-- The per-truck body of `checkMaintenanceDue`: the five rule sections in
source order (oil, WV inspection, OEMS inspection, brakes, tires), with the
combined `hasOverdue` flag. -/
def checkTruckAlerts (truck : Truck) (now : Int) :
    Except String (List Alert × Bool) :=
  let sevenDaysAgo := sevenDaysAgoOf now
  match oilCheck truck sevenDaysAgo with
  | Except.error e => Except.error e
  | Except.ok (a1, o1) =>
    let (a2, o2) := inspectionCheck truck sevenDaysAgo now
    let (a3, o3) := oemsCheck truck sevenDaysAgo now
    match brakeCheck truck sevenDaysAgo with
    | Except.error e => Except.error e
    | Except.ok (a4, o4) =>
      match tireCheck truck sevenDaysAgo with
      | Except.error e => Except.error e
      | Except.ok (a5, o5) =>
        Except.ok (a1 ++ a2 ++ a3 ++ a4 ++ a5, o1 || o2 || o3 || o4 || o5)

/-- One vehicle entry of the batch built by `checkMaintenanceDue`
(`{ ...truck, alerts, hasOverdue }`). -/
structure TruckWithAlerts where
  truck : Truck
  alerts : List Alert
  hasOverdue : Bool
deriving Repr, DecidableEq

/-- The 7-day batch gate at the top of the `checkMaintenanceDue` loop:
skip the truck when not in test mode and `lastMaintenanceAlertSent` is
strictly later than `sevenDaysAgo`. -/
def skippedByBatchGate (truck : Truck) (testMode : Bool)
    (sevenDaysAgo : Int) : Bool :=
  if testMode = false then
    match truck.lastMaintenanceAlertSent with
    | some lastAlertDate => sevenDaysAgo < lastAlertDate
    | none => false
  else false

/-- `checkMaintenanceDue(testMode)` over the list of all trucks: apply the
batch gate, evaluate the rules, and keep the trucks that have at least one
alert or are out of service.  An exception thrown while evaluating any
truck aborts the whole pass. -/
def checkMaintenanceDue : List Truck → Bool → Int →
    Except String (List TruckWithAlerts)
  | [], _, _ => Except.ok []
  | truck :: rest, testMode, now =>
    if skippedByBatchGate truck testMode (sevenDaysAgoOf now) = true then
      checkMaintenanceDue rest testMode now
    else
      match checkTruckAlerts truck now with
      | Except.error e => Except.error e
      | Except.ok (maintenanceAlerts, hasOverdue) =>
        match checkMaintenanceDue rest testMode now with
        | Except.error e => Except.error e
        | Except.ok tail =>
          if maintenanceAlerts.length > 0 ∨ truck.status = outOfServiceStatus then
            Except.ok (⟨truck, maintenanceAlerts, hasOverdue⟩ :: tail)
          else Except.ok tail

/-- One rendered block inside a truck section of the digest
(`generateTruckMaintenanceHtml`): the out-of-service banner or one alert
line.  The surrounding HTML markup is abstracted away. -/
inductive DigestEntry where
  | outOfServiceBanner : String → DigestEntry
  | alertLine : String → String → Priority → DigestEntry
deriving Repr, DecidableEq

def noReasonSpecified : String := "No reason specified"

/-- The entries of a truck section in `generateTruckMaintenanceHtml`:
the out-of-service banner first when applicable, then the alert lines. -/
def truckDigestEntries (truck : Truck) (maintenanceAlerts : List Alert) :
    List DigestEntry :=
  (if truck.status = outOfServiceStatus then
    [DigestEntry.outOfServiceBanner
      (jsStringOr truck.outOfServiceReason noReasonSpecified)]
  else []) ++
  maintenanceAlerts.map (fun a => DigestEntry.alertLine a.type a.message a.priority)

/-- A recipient of the maintenance digest. -/
structure Recipient where
  email : String
  name : String
deriving Repr, DecidableEq

/-- The fixed 5-recipient distribution list in `sendMaintenanceAlert`. -/
def recipients : List Recipient :=
  [⟨"john.browning@lincolnems.com", "John Browning"⟩,
   ⟨"deathlikesnake6@gmail.com", "William Frazier"⟩,
   ⟨"tw4001@aol.com", "Trish Watson"⟩,
   ⟨"sergentlatosha@gmail.com", "LaTosha Sergent"⟩,
   ⟨"charley.egnor@lincolnems.com", "Charley Egnor"⟩]

/-- The value resolved by `sendWithMailerSend` on success.  `rejected` is
always set to the empty list by the source. -/
structure SendResult where
  messageId : String
  accepted : List String
  rejected : List String
deriving Repr, DecidableEq

def apiKeyRequiredError : String := "MailerSend API key is required"

def fieldsRequiredError : String := "fromEmail, toEmail, and subject are required"

def fromEmailAddress : String := "alerts@trucks.lincolnems.com"

/-- `sendWithMailerSend` for a single recipient.  The MailerSend HTTP call
is modelled by `channel`, which maps the recipient address to a message id
or an error.  The empty string stands for an absent (falsy) argument. -/
def sendWithMailerSend (apiKey fromEmail toEmail subject : String)
    (channel : String → Except String String) : Except String SendResult :=
  if apiKey = "" then Except.error apiKeyRequiredError
  else if fromEmail = "" ∨ toEmail = "" ∨ subject = "" then
    Except.error fieldsRequiredError
  else
    match channel toEmail with
    | Except.error e => Except.error e
    | Except.ok messageId =>
      Except.ok ⟨messageId, [toEmail], []⟩

/-- `Promise.all`: resolves with all values when every promise resolves,
rejects with the error of a rejected promise otherwise. -/
def promiseAll {α : Type} : List (Except String α) → Except String (List α)
  | [] => Except.ok []
  | x :: rest =>
    match x with
    | Except.error e => Except.error e
    | Except.ok r =>
      match promiseAll rest with
      | Except.error e => Except.error e
      | Except.ok rs => Except.ok (r :: rs)

/-- The recipients whose own channel call succeeds.  All five channel calls
are created eagerly by `recipients.map(...)` before `Promise.all` settles,
so delivery to a recipient depends only on that call. -/
def deliveredRecipients (channel : String → Except String String) :
    List String :=
  (recipients.filter (fun r =>
    match channel r.email with
    | Except.ok _ => true
    | Except.error _ => false)).map (fun r => r.email)

/-- The JSON body of a successful `sendMaintenanceAlert` response. -/
structure DispatchResponse where
  trucksWithMaintenance : Nat
  recipientEmails : List String
  messageIds : List String
  accepted : List String
  rejected : List String
deriving Repr, DecidableEq

def maintenanceSubjectFor (n : Nat) : String :=
  "Maintenance Due Alert - " ++ toString n ++ " Truck(s) Require Attention"

/-- The `sendMaintenanceAlert` HTTP endpoint: evaluate the batch, fan the
digest out to the fixed recipient list with `Promise.all`, and, only when
every send succeeded, stamp `lastMaintenanceAlertSent = now` on every truck
of the batch.  The result pairs the surfaced outcome (`none` = the
no-maintenance 200 response) with the truck store after the call. -/
def sendMaintenanceAlert (trucks : List Truck) (testMode : Bool) (now : Int)
    (apiKey : String) (channel : String → Except String String) :
    Except String (Option DispatchResponse) × List Truck :=
  match checkMaintenanceDue trucks testMode now with
  | Except.error e => (Except.error e, trucks)
  | Except.ok trucksWithMaintenance =>
    if trucksWithMaintenance.length = 0 then (Except.ok none, trucks)
    else
      match promiseAll (recipients.map (fun r =>
        sendWithMailerSend apiKey fromEmailAddress r.email
          (maintenanceSubjectFor trucksWithMaintenance.length) channel)) with
      | Except.error e => (Except.error e, trucks)
      | Except.ok results =>
        (Except.ok (some
          ⟨trucksWithMaintenance.length,
           recipients.map (fun r => r.email),
           results.map (fun r => r.messageId),
           (results.map (fun r => r.accepted)).flatten,
           (results.map (fun r => r.rejected)).flatten⟩),
         trucks.map (fun t =>
           if trucksWithMaintenance.any (fun tw => tw.truck.id = t.id) then
             { t with lastMaintenanceAlertSent := some now }
           else t))

/-- A document of the `maintenance` collection (the accountability log),
restricted to the fields written by `clearMaintenanceAlert`. -/
structure MaintenanceRecord where
  truckId : String
  truckUnitNumber : String
  type : String
  description : String
  date : Int
  mileage : Nat
  cost : Nat
  performedBy : String
  notes : String
  createdAt : Int
  createdBy : String
deriving Repr, DecidableEq

/-- The persistent state touched by `clearMaintenanceAlert`: the `trucks`
collection and the append-only `maintenance` collection. -/
structure ClearState where
  trucks : List Truck
  maintenance : List MaintenanceRecord
deriving Repr, DecidableEq

/-- The alert-kind label interpolated into the cleared-record description. -/
def alertTypeLabel (alertType : String) : String :=
  if alertType = oilChangeKey then "Oil Change"
  else if alertType = brakeChangeKey then "Brake Service"
  else if alertType = tireChangeKey then "Tire Service"
  else if alertType = inspectionKey then "WV Inspection"
  else if alertType = oemsInspectionKey then "OEMS Inspection"
  else alertType

def truckNotFoundError : String := "Truck not found"

def recordFailedPrefix : String :=
  "Failed to create maintenance record for alert clearing: "

def alertClearSystem : String := "alert-clear-system"

def alertClearPerformedBy : String := "Alert Clear System"

def maintenanceTypeOther : String := "other"

def clearedDescriptionPrefix : String := "Maintenance Alert Cleared: "

def dismissalNotesPrefix : String :=
  "Maintenance alert dismissed without performing work. Mechanic assessment: "

/-- `getDoc` on the `trucks` collection. -/
def findTruck (trucks : List Truck) (truckId : String) : Option Truck :=
  trucks.find? (fun t => t.id = truckId)

/-- `clearMaintenanceAlert(truckId, alertType, notes, userId)`: merge the
cleared timestamp into `alertsCleared` with `updateDoc` (also stamping
`updatedAt`/`updatedBy`), then try to append the accountability record to
the `maintenance` collection with up to 3 attempts; if all 3 fail, throw.
`appendFailure i` gives the error of attempt `i` (`none` = attempt `i`
succeeds).  The result pairs the surfaced outcome with the state of the
store when the call returns. -/
def clearMaintenanceAlert (s : ClearState) (truckId alertType notes : String)
    (userId : Option String) (now : Int) (appendFailure : Nat → Option String) :
    Except String Unit × ClearState :=
  match findTruck s.trucks truckId with
  | none => (Except.error truckNotFoundError, s)
  | some truckData =>
    let updatedAlertsCleared := insertCleared truckData.alertsCleared alertType now
    let trucks1 := s.trucks.map (fun t =>
      if t.id = truckId then
        { t with alertsCleared := updatedAlertsCleared,
                 updatedAt := now,
                 updatedBy := userId.getD alertClearSystem }
      else t)
    let s1 : ClearState := ⟨trucks1, s.maintenance⟩
    let record : MaintenanceRecord :=
      ⟨truckId, truckData.unitNumber, maintenanceTypeOther,
       clearedDescriptionPrefix ++ alertTypeLabel alertType,
       now, truckData.mileage, 0, alertClearPerformedBy,
       dismissalNotesPrefix ++ notes, now, userId.getD alertClearSystem⟩
    match appendFailure 0 with
    | none => (Except.ok (), ⟨s1.trucks, s1.maintenance ++ [record]⟩)
    | some _ =>
      match appendFailure 1 with
      | none => (Except.ok (), ⟨s1.trucks, s1.maintenance ++ [record]⟩)
      | some _ =>
        match appendFailure 2 with
        | none => (Except.ok (), ⟨s1.trucks, s1.maintenance ++ [record]⟩)
        | some e => (Except.error (recordFailedPrefix ++ e), s1)

/-- JS whitespace for `String.prototype.trim` (the common cases). -/
def isJsSpace (c : Char) : Bool :=
  c = Char.ofNat 32 ∨ c = Char.ofNat 9 ∨ c = Char.ofNat 10 ∨
    c = Char.ofNat 13

/-- `notes.trim()`: strip leading and trailing whitespace. -/
def jsTrim (s : String) : String :=
  String.mk (((s.data.dropWhile isJsSpace).reverse.dropWhile
    isJsSpace).reverse)

/-- The guard in `ClearAlertModal.handleClearAlert`: the dialog refuses to
submit when the trimmed notes are empty, otherwise it invokes the clearance
with the trimmed notes. -/
def clearAlertModalSubmit (notes : String) : Option String :=
  if jsTrim notes = "" then none else some (jsTrim notes)

/-- The alerts of a given `type` in an alert list. -/
def alertsOfType (alerts : List Alert) (t : String) : List Alert :=
  alerts.filter (fun a => a.type = t)

/-- The severities reported for one alert kind by a rule-evaluation result. -/
def kindPriorities (res : Except String (List Alert × Bool)) (t : String) :
    Except String (List Priority) :=
  match res with
  | Except.error e => Except.error e
  | Except.ok (alerts, _) =>
    Except.ok ((alertsOfType alerts t).map (fun a => a.priority))

/-- A baseline in-service truck with no alert in any category: every
`lastServiceOdometer` equals the odometer and both expiry dates are absent. -/
def baseTruck : Truck :=
  ⟨"t1", "101", "in-service", none, 0, none, some 0, none, none,
   none, some 0, none, some 0, [], none, 0, ""⟩

/-- A truck whose only varying rule input is the oil pair
(`lastOilChangeMileage = last`, odometer `odo`); brake and tire baselines
are pinned to the odometer so those rules stay silent. -/
def oilTruck (last odo : Nat) : Truck :=
  { baseTruck with mileage := odo, lastOilChangeMileage := some last,
                   lastBrakeChangeMileage := some odo,
                   lastTireChangeMileage := some odo }

/-- A truck whose only varying rule input is the brake pair. -/
def brakeTruck (last odo : Nat) : Truck :=
  { baseTruck with mileage := odo, lastOilChangeMileage := some odo,
                   lastBrakeChangeMileage := some last,
                   lastTireChangeMileage := some odo }

/-- A truck whose only varying rule input is the tire pair. -/
def tireTruck (last odo : Nat) : Truck :=
  { baseTruck with mileage := odo, lastOilChangeMileage := some odo,
                   lastBrakeChangeMileage := some odo,
                   lastTireChangeMileage := some last }

/-! ### Basic lemmas about the clearance map and the clearance gate -/

theorem lookupCleared_map_self (m : List (String × Int)) (key : String)
    (v : Int) (hs : (lookupCleared m key).isSome = true) :
    lookupCleared (m.map (fun p => if p.1 = key then (key, v) else p)) key
      = some v := by
  induction m with
  | nil => simp [lookupCleared] at hs
  | cons p rest ih =>
    obtain ⟨k, w⟩ := p
    simp only [List.map_cons]
    by_cases hp : k = key
    · rw [show (if (k, w).1 = key then (key, v) else (k, w)) = (key, v) from
        if_pos hp]
      simp [lookupCleared]
    · rw [show (if (k, w).1 = key then (key, v) else (k, w)) = (k, w) from
        if_neg hp]
      have hs2 : (lookupCleared rest key).isSome = true := by
        simpa [lookupCleared, hp] using hs
      simp [lookupCleared, hp, ih hs2]

theorem lookupCleared_map_ne (m : List (String × Int)) (key k2 : String)
    (v : Int) (h : k2 ≠ key) :
    lookupCleared (m.map (fun p => if p.1 = key then (key, v) else p)) k2
      = lookupCleared m k2 := by
  induction m with
  | nil => simp [lookupCleared]
  | cons p rest ih =>
    obtain ⟨k, w⟩ := p
    simp only [List.map_cons]
    by_cases hp : k = key
    · rw [show (if (k, w).1 = key then (key, v) else (k, w)) = (key, v) from
        if_pos hp]
      have hk2 : ¬ key = k2 := fun hh => h hh.symm
      have hk2b : ¬ k = k2 := by rw [hp]; exact hk2
      simp [lookupCleared, hk2, hk2b, ih]
    · rw [show (if (k, w).1 = key then (key, v) else (k, w)) = (k, w) from
        if_neg hp]
      by_cases hp2 : k = k2
      · simp [lookupCleared, hp2]
      · simp [lookupCleared, hp2, ih]

theorem lookupCleared_append_self (m : List (String × Int)) (key : String)
    (v : Int) (hs : lookupCleared m key = none) :
    lookupCleared (m ++ [(key, v)]) key = some v := by
  induction m with
  | nil => simp [lookupCleared]
  | cons p rest ih =>
    obtain ⟨k, w⟩ := p
    by_cases hk : k = key
    · simp [lookupCleared, hk] at hs
    · simp only [lookupCleared, hk, if_false] at hs
      simp [lookupCleared, hk, ih hs]

theorem lookupCleared_append_ne (m : List (String × Int)) (key k2 : String)
    (v : Int) (h : k2 ≠ key) :
    lookupCleared (m ++ [(key, v)]) k2 = lookupCleared m k2 := by
  induction m with
  | nil =>
    have hk2 : ¬ key = k2 := fun hh => h hh.symm
    simp [lookupCleared, hk2]
  | cons p rest ih =>
    obtain ⟨k, w⟩ := p
    by_cases hp : k = k2
    · simp [lookupCleared, hp]
    · simp [lookupCleared, hp, ih]

theorem lookupCleared_insertCleared_self (m : List (String × Int))
    (key : String) (v : Int) :
    lookupCleared (insertCleared m key v) key = some v := by
  unfold insertCleared
  split_ifs with hs
  · exact lookupCleared_map_self m key v hs
  · refine lookupCleared_append_self m key v ?_
    cases h : lookupCleared m key with
    | none => rfl
    | some c => rw [h] at hs; simp at hs

theorem lookupCleared_insertCleared_ne (m : List (String × Int))
    (key k2 : String) (v : Int) (h : k2 ≠ key) :
    lookupCleared (insertCleared m key v) k2 = lookupCleared m k2 := by
  unfold insertCleared
  split_ifs with hs
  · exact lookupCleared_map_ne m key k2 v h
  · exact lookupCleared_append_ne m key k2 v h

theorem isAlertClearedRecently_eq (t : Truck) (sda : Int) (k : String)
    (c : Int) (h : lookupCleared t.alertsCleared k = some c) :
    isAlertClearedRecently t sda k = decide (sda < c) := by
  simp [isAlertClearedRecently, h]

theorem isAlertClearedRecently_absent (t : Truck) (sda : Int) (k : String)
    (h : lookupCleared t.alertsCleared k = none) :
    isAlertClearedRecently t sda k = false := by
  simp [isAlertClearedRecently, h]

/-! ### Shape lemmas for the five rule sections -/

theorem oilCheck_overdue (t : Truck) (sda : Int) (m : Nat)
    (hlast : t.lastOilChangeMileage = some m)
    (hmile : m + 5000 ≤ t.mileage)
    (hcl : isAlertClearedRecently t sda oilChangeKey = false) :
    ∃ msg, oilCheck t sda =
      Except.ok ([⟨oilAlertType, msg, Priority.overdue⟩], true) := by
  apply Exists.intro
  simp only [oilCheck, hlast, Option.getD_some]
  rw [if_pos ⟨hmile, hcl⟩]

theorem oilCheck_dueSoon (t : Truck) (sda : Int) (m : Nat)
    (hlast : t.lastOilChangeMileage = some m)
    (hlow : m + 4500 ≤ t.mileage) (hhigh : t.mileage < m + 5000)
    (hcl : isAlertClearedRecently t sda oilChangeKey = false) :
    ∃ msg, oilCheck t sda =
      Except.ok ([⟨oilAlertType, msg, Priority.dueSoon⟩], false) := by
  apply Exists.intro
  simp only [oilCheck, hlast, Option.getD_some]
  rw [if_neg (by rintro ⟨h1, -⟩; omega), if_pos ⟨by omega, hcl⟩]

theorem oilCheck_silent (t : Truck) (sda : Int)
    (h : t.mileage < t.lastOilChangeMileage.getD 0 + 4500) :
    oilCheck t sda = Except.ok ([], false) := by
  simp only [oilCheck]
  rw [if_neg (by rintro ⟨h1, -⟩; omega), if_neg (by rintro ⟨h1, -⟩; omega)]

theorem oilCheck_cleared (t : Truck) (sda : Int)
    (hcl : isAlertClearedRecently t sda oilChangeKey = true) :
    oilCheck t sda = Except.ok ([], false) := by
  simp [oilCheck, hcl]

theorem brakeCheck_overdue (t : Truck) (sda : Int) (m : Nat)
    (hlast : t.lastBrakeChangeMileage = some m)
    (hmile : m + 25000 ≤ t.mileage)
    (hcl : isAlertClearedRecently t sda brakeChangeKey = false) :
    ∃ msg, brakeCheck t sda =
      Except.ok ([⟨brakeAlertType, msg, Priority.overdue⟩],
        decide (t.mileage - (m + 25000) > 1000)) := by
  apply Exists.intro
  simp only [brakeCheck, hlast, Option.getD_some]
  rw [if_pos ⟨hmile, hcl⟩]

theorem brakeCheck_dueSoon (t : Truck) (sda : Int) (m : Nat)
    (hlast : t.lastBrakeChangeMileage = some m)
    (hlow : m + 22500 ≤ t.mileage) (hhigh : t.mileage < m + 25000)
    (hcl : isAlertClearedRecently t sda brakeChangeKey = false) :
    ∃ msg, brakeCheck t sda =
      Except.ok ([⟨brakeAlertType, msg, Priority.dueSoon⟩], false) := by
  apply Exists.intro
  simp only [brakeCheck, hlast, Option.getD_some]
  rw [if_neg (by rintro ⟨h1, -⟩; omega), if_pos ⟨by omega, hcl⟩]

theorem brakeCheck_silent (t : Truck) (sda : Int)
    (h : t.mileage < t.lastBrakeChangeMileage.getD 0 + 22500) :
    brakeCheck t sda = Except.ok ([], false) := by
  simp only [brakeCheck]
  rw [if_neg (by rintro ⟨h1, -⟩; omega), if_neg (by rintro ⟨h1, -⟩; omega)]

theorem tireCheck_overdue (t : Truck) (sda : Int) (m : Nat)
    (hlast : t.lastTireChangeMileage = some m)
    (hmile : m + 40000 ≤ t.mileage)
    (hcl : isAlertClearedRecently t sda tireChangeKey = false) :
    ∃ msg, tireCheck t sda =
      Except.ok ([⟨tireAlertType, msg, Priority.overdue⟩],
        decide (t.mileage - (m + 40000) > 2000)) := by
  apply Exists.intro
  simp only [tireCheck, hlast, Option.getD_some]
  rw [if_pos ⟨hmile, hcl⟩]

theorem tireCheck_dueSoon (t : Truck) (sda : Int) (m : Nat)
    (hlast : t.lastTireChangeMileage = some m)
    (hlow : m + 36000 ≤ t.mileage) (hhigh : t.mileage < m + 40000)
    (hcl : isAlertClearedRecently t sda tireChangeKey = false) :
    ∃ msg, tireCheck t sda =
      Except.ok ([⟨tireAlertType, msg, Priority.dueSoon⟩], false) := by
  apply Exists.intro
  simp only [tireCheck, hlast, Option.getD_some]
  rw [if_neg (by rintro ⟨h1, -⟩; omega), if_pos ⟨by omega, hcl⟩]

theorem tireCheck_silent (t : Truck) (sda : Int)
    (h : t.mileage < t.lastTireChangeMileage.getD 0 + 36000) :
    tireCheck t sda = Except.ok ([], false) := by
  simp only [tireCheck]
  rw [if_neg (by rintro ⟨h1, -⟩; omega), if_neg (by rintro ⟨h1, -⟩; omega)]

theorem inspectionCheck_absent (t : Truck) (sda now : Int)
    (h : t.inspectionStickerExpiry = none) :
    inspectionCheck t sda now = ([], false) := by
  simp [inspectionCheck, h]

theorem inspectionCheck_overdue (t : Truck) (sda now : Int) (e : Int)
    (h : t.inspectionStickerExpiry = some e)
    (hcl : isAlertClearedRecently t sda inspectionKey = false)
    (hd : ceilDiv (e - now) (1000 * 60 * 60 * 24) ≤ 0) :
    ∃ msg, inspectionCheck t sda now =
      ([⟨inspectionAlertType, msg, Priority.overdue⟩], true) := by
  apply Exists.intro
  simp only [inspectionCheck, h, hcl, Bool.false_eq_true, if_false]
  rw [if_pos hd]

theorem inspectionCheck_dueSoon (t : Truck) (sda now : Int) (e : Int)
    (h : t.inspectionStickerExpiry = some e)
    (hcl : isAlertClearedRecently t sda inspectionKey = false)
    (hd0 : 0 < ceilDiv (e - now) (1000 * 60 * 60 * 24))
    (hd30 : ceilDiv (e - now) (1000 * 60 * 60 * 24) ≤ 30) :
    ∃ msg, inspectionCheck t sda now =
      ([⟨inspectionAlertType, msg, Priority.dueSoon⟩], false) := by
  apply Exists.intro
  simp only [inspectionCheck, h, hcl, Bool.false_eq_true, if_false]
  rw [if_neg (by omega), if_pos hd30]

theorem inspectionCheck_far (t : Truck) (sda now : Int) (e : Int)
    (h : t.inspectionStickerExpiry = some e)
    (hd : 30 < ceilDiv (e - now) (1000 * 60 * 60 * 24)) :
    inspectionCheck t sda now = ([], false) := by
  simp only [inspectionCheck, h]
  split_ifs with h1 h2 h3 <;> first | rfl | omega

theorem oemsCheck_absent (t : Truck) (sda now : Int)
    (h : t.oemsInspectionExpiry = none) :
    oemsCheck t sda now = ([], false) := by
  simp [oemsCheck, h]

theorem oemsCheck_overdue (t : Truck) (sda now : Int) (e : Int)
    (h : t.oemsInspectionExpiry = some e)
    (hcl : isAlertClearedRecently t sda oemsInspectionKey = false)
    (hd : ceilDiv (e - now) (1000 * 60 * 60 * 24) ≤ 0) :
    ∃ msg, oemsCheck t sda now =
      ([⟨oemsAlertType, msg, Priority.overdue⟩], true) := by
  apply Exists.intro
  simp only [oemsCheck, h, hcl, Bool.false_eq_true, if_false]
  rw [if_pos hd]

theorem oemsCheck_dueSoon (t : Truck) (sda now : Int) (e : Int)
    (h : t.oemsInspectionExpiry = some e)
    (hcl : isAlertClearedRecently t sda oemsInspectionKey = false)
    (hd0 : 0 < ceilDiv (e - now) (1000 * 60 * 60 * 24))
    (hd30 : ceilDiv (e - now) (1000 * 60 * 60 * 24) ≤ 30) :
    ∃ msg, oemsCheck t sda now =
      ([⟨oemsAlertType, msg, Priority.dueSoon⟩], false) := by
  apply Exists.intro
  simp only [oemsCheck, h, hcl, Bool.false_eq_true, if_false]
  rw [if_neg (by omega), if_pos hd30]

theorem oemsCheck_far (t : Truck) (sda now : Int) (e : Int)
    (h : t.oemsInspectionExpiry = some e)
    (hd : 30 < ceilDiv (e - now) (1000 * 60 * 60 * 24)) :
    oemsCheck t sda now = ([], false) := by
  simp only [oemsCheck, h]
  split_ifs with h1 h2 h3 <;> first | rfl | omega

/-! ### Composing the five sections -/

theorem checkTruckAlerts_eq {t : Truck} {now : Int}
    {a1 a2 a3 a4 a5 : List Alert} {o1 o2 o3 o4 o5 : Bool}
    (h1 : oilCheck t (sevenDaysAgoOf now) = Except.ok (a1, o1))
    (h2 : inspectionCheck t (sevenDaysAgoOf now) now = (a2, o2))
    (h3 : oemsCheck t (sevenDaysAgoOf now) now = (a3, o3))
    (h4 : brakeCheck t (sevenDaysAgoOf now) = Except.ok (a4, o4))
    (h5 : tireCheck t (sevenDaysAgoOf now) = Except.ok (a5, o5)) :
    checkTruckAlerts t now =
      Except.ok (a1 ++ a2 ++ a3 ++ a4 ++ a5, o1 || o2 || o3 || o4 || o5) := by
  simp only [checkTruckAlerts, h1, h2, h3, h4, h5]

theorem alertsOfType_append (l1 l2 : List Alert) (ty : String) :
    alertsOfType (l1 ++ l2) ty = alertsOfType l1 ty ++ alertsOfType l2 ty := by
  simp [alertsOfType]

theorem alertsOfType_nil (ty : String) : alertsOfType [] ty = [] := rfl

theorem alertsOfType_single_eq (a : Alert) (ty : String) (h : a.type = ty) :
    alertsOfType [a] ty = [a] := by
  simp [alertsOfType, h]

theorem alertsOfType_single_ne (a : Alert) (ty : String) (h : a.type ≠ ty) :
    alertsOfType [a] ty = [] := by
  simp [alertsOfType, h]

theorem kindPriorities_ok {t : Truck} {now : Int} {alerts : List Alert}
    {hov : Bool} (ty : String)
    (h : checkTruckAlerts t now = Except.ok (alerts, hov)) :
    kindPriorities (checkTruckAlerts t now) ty =
      Except.ok ((alertsOfType alerts ty).map (fun a => a.priority)) := by
  simp [kindPriorities, h]

/-! ### Lemmas about `Promise.all` over the recipient sends -/

theorem promiseAll_error_of_mem {α : Type} (l : List (Except String α))
    (e : String) (x : Except String α) (hx : x ∈ l)
    (hxe : x = Except.error e) :
    ∃ e2, promiseAll l = Except.error e2 := by
  induction l with
  | nil => cases hx
  | cons y rest ih =>
    rcases List.mem_cons.mp hx with h | h
    · subst h; subst hxe
      exact ⟨e, rfl⟩
    · cases y with
      | error ey => exact ⟨ey, rfl⟩
      | ok vy =>
        obtain ⟨e2, h2⟩ := ih h
        exact ⟨e2, by simp [promiseAll, h2]⟩

theorem promiseAll_ok_mem {α : Type} (l : List (Except String α))
    (rs : List α) (h : promiseAll l = Except.ok rs) :
    ∀ r ∈ rs, Except.ok r ∈ l := by
  induction l generalizing rs with
  | nil =>
    simp only [promiseAll] at h
    cases h
    intro r hr; cases hr
  | cons y rest ih =>
    cases y with
    | error ey => simp [promiseAll] at h
    | ok vy =>
      simp only [promiseAll] at h
      cases hrest : promiseAll rest with
      | error e2 => rw [hrest] at h; cases h
      | ok vs =>
        rw [hrest] at h
        cases h
        intro r hr
        rcases List.mem_cons.mp hr with h | h
        · subst h; exact List.mem_cons_self _ _
        · exact List.mem_cons_of_mem _ (ih vs hrest r h)

theorem sendWithMailerSend_error_of_channel (apiKey fromEmail toEmail
    subject : String) (channel : String → Except String String) (e : String)
    (h : channel toEmail = Except.error e) :
    ∃ e2, sendWithMailerSend apiKey fromEmail toEmail subject channel =
      Except.error e2 := by
  unfold sendWithMailerSend
  split_ifs with h1 h2
  · exact ⟨apiKeyRequiredError, rfl⟩
  · exact ⟨fieldsRequiredError, rfl⟩
  · exact ⟨e, by rw [h]⟩

theorem sendWithMailerSend_rejected_empty (apiKey fromEmail toEmail
    subject : String) (channel : String → Except String String)
    (r : SendResult)
    (h : sendWithMailerSend apiKey fromEmail toEmail subject channel =
      Except.ok r) :
    r.rejected = [] := by
  unfold sendWithMailerSend at h
  split_ifs at h
  cases hc : channel toEmail with
  | error e => rw [hc] at h; cases h
  | ok mid => rw [hc] at h; cases h; rfl

theorem kindPrioritiesOfSections {t : Truck} {now : Int}
    {a1 a2 a3 a4 a5 : List Alert} {o1 o2 o3 o4 o5 : Bool} (ty : String)
    (h1 : oilCheck t (sevenDaysAgoOf now) = Except.ok (a1, o1))
    (h2 : inspectionCheck t (sevenDaysAgoOf now) now = (a2, o2))
    (h3 : oemsCheck t (sevenDaysAgoOf now) now = (a3, o3))
    (h4 : brakeCheck t (sevenDaysAgoOf now) = Except.ok (a4, o4))
    (h5 : tireCheck t (sevenDaysAgoOf now) = Except.ok (a5, o5)) :
    kindPriorities (checkTruckAlerts t now) ty =
      Except.ok ((alertsOfType (a1 ++ a2 ++ a3 ++ a4 ++ a5) ty).map
        (fun a => a.priority)) :=
  kindPriorities_ok ty (checkTruckAlerts_eq h1 h2 h3 h4 h5)

theorem ceilDiv_day_of_zero : ceilDiv 0 (1000 * 60 * 60 * 24) = 0 := by decide

theorem ceilDiv_day_of_30 :
    ceilDiv 2592000000 (1000 * 60 * 60 * 24) = 30 := by decide

theorem ceilDiv_day_of_31 :
    ceilDiv 2678400000 (1000 * 60 * 60 * 24) = 31 := by decide

/-- Claim C6 (confirmed): for every mileage-based kind (oil interval 5000
with margin 500, brakes 25000 with 2500, tires 40000 with 4000) and
`nextDue = lastServiceOdometer + interval`, an odometer exactly equal to
`nextDue` yields severity overdue, an odometer exactly equal to
`nextDue - earlyWarningMargin` yields due-soon, and one mile less than that
yields no alert of that kind. -/
theorem mileage_interval_threshold_boundaries (m : Nat) (now : Int) :
    (kindPriorities (checkTruckAlerts (oilTruck m (m + 5000)) now) oilAlertType
        = Except.ok [Priority.overdue]
      ∧ kindPriorities (checkTruckAlerts (oilTruck m (m + 4500)) now) oilAlertType
        = Except.ok [Priority.dueSoon]
      ∧ kindPriorities (checkTruckAlerts (oilTruck m (m + 4499)) now) oilAlertType
        = Except.ok [])
    ∧ (kindPriorities (checkTruckAlerts (brakeTruck m (m + 25000)) now) brakeAlertType
        = Except.ok [Priority.overdue]
      ∧ kindPriorities (checkTruckAlerts (brakeTruck m (m + 22500)) now) brakeAlertType
        = Except.ok [Priority.dueSoon]
      ∧ kindPriorities (checkTruckAlerts (brakeTruck m (m + 22499)) now) brakeAlertType
        = Except.ok [])
    ∧ (kindPriorities (checkTruckAlerts (tireTruck m (m + 40000)) now) tireAlertType
        = Except.ok [Priority.overdue]
      ∧ kindPriorities (checkTruckAlerts (tireTruck m (m + 36000)) now) tireAlertType
        = Except.ok [Priority.dueSoon]
      ∧ kindPriorities (checkTruckAlerts (tireTruck m (m + 35999)) now) tireAlertType
        = Except.ok []) := by
  refine ⟨⟨?_, ?_, ?_⟩, ⟨?_, ?_, ?_⟩, ⟨?_, ?_, ?_⟩⟩
  · obtain ⟨msg, hoil⟩ := oilCheck_overdue (oilTruck m (m + 5000))
      (sevenDaysAgoOf now) m rfl (by show m + 5000 ≤ m + 5000; omega)
      (isAlertClearedRecently_absent _ _ _ rfl)
    rw [kindPrioritiesOfSections oilAlertType hoil
      (inspectionCheck_absent _ _ _ rfl) (oemsCheck_absent _ _ _ rfl)
      (brakeCheck_silent _ _ (by show m + 5000 < m + 5000 + 22500; omega))
      (tireCheck_silent _ _ (by show m + 5000 < m + 5000 + 36000; omega))]
    simp [alertsOfType]
  · obtain ⟨msg, hoil⟩ := oilCheck_dueSoon (oilTruck m (m + 4500))
      (sevenDaysAgoOf now) m rfl (by show m + 4500 ≤ m + 4500; omega)
      (by show m + 4500 < m + 5000; omega)
      (isAlertClearedRecently_absent _ _ _ rfl)
    rw [kindPrioritiesOfSections oilAlertType hoil
      (inspectionCheck_absent _ _ _ rfl) (oemsCheck_absent _ _ _ rfl)
      (brakeCheck_silent _ _ (by show m + 4500 < m + 4500 + 22500; omega))
      (tireCheck_silent _ _ (by show m + 4500 < m + 4500 + 36000; omega))]
    simp [alertsOfType]
  · rw [kindPrioritiesOfSections oilAlertType
      (oilCheck_silent _ _ (by show m + 4499 < m + 4500; omega))
      (inspectionCheck_absent _ _ _ rfl) (oemsCheck_absent _ _ _ rfl)
      (brakeCheck_silent _ _ (by show m + 4499 < m + 4499 + 22500; omega))
      (tireCheck_silent _ _ (by show m + 4499 < m + 4499 + 36000; omega))]
    simp [alertsOfType]
  · obtain ⟨msg, hbrake⟩ := brakeCheck_overdue (brakeTruck m (m + 25000))
      (sevenDaysAgoOf now) m rfl (by show m + 25000 ≤ m + 25000; omega)
      (isAlertClearedRecently_absent _ _ _ rfl)
    rw [kindPrioritiesOfSections brakeAlertType
      (oilCheck_silent _ _ (by show m + 25000 < m + 25000 + 4500; omega))
      (inspectionCheck_absent _ _ _ rfl) (oemsCheck_absent _ _ _ rfl)
      hbrake
      (tireCheck_silent _ _ (by show m + 25000 < m + 25000 + 36000; omega))]
    simp [alertsOfType]
  · obtain ⟨msg, hbrake⟩ := brakeCheck_dueSoon (brakeTruck m (m + 22500))
      (sevenDaysAgoOf now) m rfl (by show m + 22500 ≤ m + 22500; omega)
      (by show m + 22500 < m + 25000; omega)
      (isAlertClearedRecently_absent _ _ _ rfl)
    rw [kindPrioritiesOfSections brakeAlertType
      (oilCheck_silent _ _ (by show m + 22500 < m + 22500 + 4500; omega))
      (inspectionCheck_absent _ _ _ rfl) (oemsCheck_absent _ _ _ rfl)
      hbrake
      (tireCheck_silent _ _ (by show m + 22500 < m + 22500 + 36000; omega))]
    simp [alertsOfType]
  · rw [kindPrioritiesOfSections brakeAlertType
      (oilCheck_silent _ _ (by show m + 22499 < m + 22499 + 4500; omega))
      (inspectionCheck_absent _ _ _ rfl) (oemsCheck_absent _ _ _ rfl)
      (brakeCheck_silent _ _ (by show m + 22499 < m + 22500; omega))
      (tireCheck_silent _ _ (by show m + 22499 < m + 22499 + 36000; omega))]
    simp [alertsOfType]
  · obtain ⟨msg, htire⟩ := tireCheck_overdue (tireTruck m (m + 40000))
      (sevenDaysAgoOf now) m rfl (by show m + 40000 ≤ m + 40000; omega)
      (isAlertClearedRecently_absent _ _ _ rfl)
    rw [kindPrioritiesOfSections tireAlertType
      (oilCheck_silent _ _ (by show m + 40000 < m + 40000 + 4500; omega))
      (inspectionCheck_absent _ _ _ rfl) (oemsCheck_absent _ _ _ rfl)
      (brakeCheck_silent _ _ (by show m + 40000 < m + 40000 + 22500; omega))
      htire]
    simp [alertsOfType]
  · obtain ⟨msg, htire⟩ := tireCheck_dueSoon (tireTruck m (m + 36000))
      (sevenDaysAgoOf now) m rfl (by show m + 36000 ≤ m + 36000; omega)
      (by show m + 36000 < m + 40000; omega)
      (isAlertClearedRecently_absent _ _ _ rfl)
    rw [kindPrioritiesOfSections tireAlertType
      (oilCheck_silent _ _ (by show m + 36000 < m + 36000 + 4500; omega))
      (inspectionCheck_absent _ _ _ rfl) (oemsCheck_absent _ _ _ rfl)
      (brakeCheck_silent _ _ (by show m + 36000 < m + 36000 + 22500; omega))
      htire]
    simp [alertsOfType]
  · rw [kindPrioritiesOfSections tireAlertType
      (oilCheck_silent _ _ (by show m + 35999 < m + 35999 + 4500; omega))
      (inspectionCheck_absent _ _ _ rfl) (oemsCheck_absent _ _ _ rfl)
      (brakeCheck_silent _ _ (by show m + 35999 < m + 35999 + 22500; omega))
      (tireCheck_silent _ _ (by show m + 35999 < m + 36000; omega))]
    simp [alertsOfType]

/-- Claim C7 (confirmed): for both compliance documents, with
`daysUntilExpiry = ceil((expiryDate - now) / day)`, an expiry date equal to
`now` yields severity overdue, an expiry date exactly 30 days ahead
(`now + 2592000000` ms) yields due-soon, and 31 days ahead
(`now + 2678400000` ms) yields no alert for that document. -/
theorem date_deadline_boundaries (now : Int) :
    (kindPriorities (checkTruckAlerts
        { baseTruck with inspectionStickerExpiry := some now } now)
        inspectionAlertType = Except.ok [Priority.overdue]
      ∧ kindPriorities (checkTruckAlerts
        { baseTruck with inspectionStickerExpiry := some (now + 2592000000) } now)
        inspectionAlertType = Except.ok [Priority.dueSoon]
      ∧ kindPriorities (checkTruckAlerts
        { baseTruck with inspectionStickerExpiry := some (now + 2678400000) } now)
        inspectionAlertType = Except.ok [])
    ∧ (kindPriorities (checkTruckAlerts
        { baseTruck with oemsInspectionExpiry := some now } now)
        oemsAlertType = Except.ok [Priority.overdue]
      ∧ kindPriorities (checkTruckAlerts
        { baseTruck with oemsInspectionExpiry := some (now + 2592000000) } now)
        oemsAlertType = Except.ok [Priority.dueSoon]
      ∧ kindPriorities (checkTruckAlerts
        { baseTruck with oemsInspectionExpiry := some (now + 2678400000) } now)
        oemsAlertType = Except.ok []) := by
  have h30 : now + 2592000000 - now = 2592000000 := by omega
  have h31 : now + 2678400000 - now = 2678400000 := by omega
  refine ⟨⟨?_, ?_, ?_⟩, ?_, ?_, ?_⟩
  · obtain ⟨msg, hinsp⟩ := inspectionCheck_overdue
      { baseTruck with inspectionStickerExpiry := some now }
      (sevenDaysAgoOf now) now now rfl
      (isAlertClearedRecently_absent _ _ _ rfl)
      (by rw [sub_self, ceilDiv_day_of_zero])
    rw [kindPrioritiesOfSections inspectionAlertType
      (oilCheck_silent _ _ (by show (0:Nat) < 0 + 4500; omega))
      hinsp (oemsCheck_absent _ _ _ rfl)
      (brakeCheck_silent _ _ (by show (0:Nat) < 0 + 22500; omega))
      (tireCheck_silent _ _ (by show (0:Nat) < 0 + 36000; omega))]
    simp [alertsOfType]
  · obtain ⟨msg, hinsp⟩ := inspectionCheck_dueSoon
      { baseTruck with inspectionStickerExpiry := some (now + 2592000000) }
      (sevenDaysAgoOf now) now (now + 2592000000) rfl
      (isAlertClearedRecently_absent _ _ _ rfl)
      (by rw [h30, ceilDiv_day_of_30]; omega)
      (by rw [h30, ceilDiv_day_of_30])
    rw [kindPrioritiesOfSections inspectionAlertType
      (oilCheck_silent _ _ (by show (0:Nat) < 0 + 4500; omega))
      hinsp (oemsCheck_absent _ _ _ rfl)
      (brakeCheck_silent _ _ (by show (0:Nat) < 0 + 22500; omega))
      (tireCheck_silent _ _ (by show (0:Nat) < 0 + 36000; omega))]
    simp [alertsOfType]
  · rw [kindPrioritiesOfSections inspectionAlertType
      (oilCheck_silent _ _ (by show (0:Nat) < 0 + 4500; omega))
      (inspectionCheck_far _ _ _ (now + 2678400000) rfl
        (by rw [h31, ceilDiv_day_of_31]; omega))
      (oemsCheck_absent _ _ _ rfl)
      (brakeCheck_silent _ _ (by show (0:Nat) < 0 + 22500; omega))
      (tireCheck_silent _ _ (by show (0:Nat) < 0 + 36000; omega))]
    simp [alertsOfType]
  · obtain ⟨msg, hoems⟩ := oemsCheck_overdue
      { baseTruck with oemsInspectionExpiry := some now }
      (sevenDaysAgoOf now) now now rfl
      (isAlertClearedRecently_absent _ _ _ rfl)
      (by rw [sub_self, ceilDiv_day_of_zero])
    rw [kindPrioritiesOfSections oemsAlertType
      (oilCheck_silent _ _ (by show (0:Nat) < 0 + 4500; omega))
      (inspectionCheck_absent _ _ _ rfl) hoems
      (brakeCheck_silent _ _ (by show (0:Nat) < 0 + 22500; omega))
      (tireCheck_silent _ _ (by show (0:Nat) < 0 + 36000; omega))]
    simp [alertsOfType]
  · obtain ⟨msg, hoems⟩ := oemsCheck_dueSoon
      { baseTruck with oemsInspectionExpiry := some (now + 2592000000) }
      (sevenDaysAgoOf now) now (now + 2592000000) rfl
      (isAlertClearedRecently_absent _ _ _ rfl)
      (by rw [h30, ceilDiv_day_of_30]; omega)
      (by rw [h30, ceilDiv_day_of_30])
    rw [kindPrioritiesOfSections oemsAlertType
      (oilCheck_silent _ _ (by show (0:Nat) < 0 + 4500; omega))
      (inspectionCheck_absent _ _ _ rfl) hoems
      (brakeCheck_silent _ _ (by show (0:Nat) < 0 + 22500; omega))
      (tireCheck_silent _ _ (by show (0:Nat) < 0 + 36000; omega))]
    simp [alertsOfType]
  · rw [kindPrioritiesOfSections oemsAlertType
      (oilCheck_silent _ _ (by show (0:Nat) < 0 + 4500; omega))
      (inspectionCheck_absent _ _ _ rfl)
      (oemsCheck_far _ _ _ (now + 2678400000) rfl
        (by rw [h31, ceilDiv_day_of_31]; omega))
      (brakeCheck_silent _ _ (by show (0:Nat) < 0 + 22500; omega))
      (tireCheck_silent _ _ (by show (0:Nat) < 0 + 36000; omega))]
    simp [alertsOfType]

theorem alertsOfType_eq_nil (l : List Alert) (ty : String)
    (h : ∀ a ∈ l, a.type ≠ ty) : alertsOfType l ty = [] := by
  simp only [alertsOfType, List.filter_eq_nil_iff]
  intro a ha
  simp [h a ha]

theorem inspectionCheck_cleared (t : Truck) (sda now : Int) (e : Int)
    (hexp : t.inspectionStickerExpiry = some e)
    (hcl : isAlertClearedRecently t sda inspectionKey = true) :
    inspectionCheck t sda now = ([], false) := by
  simp [inspectionCheck, hexp, hcl]

theorem oemsCheck_cleared (t : Truck) (sda now : Int) (e : Int)
    (hexp : t.oemsInspectionExpiry = some e)
    (hcl : isAlertClearedRecently t sda oemsInspectionKey = true) :
    oemsCheck t sda now = ([], false) := by
  simp [oemsCheck, hexp, hcl]

theorem inspectionCheck_types (t : Truck) (sda now : Int) :
    ∀ a ∈ (inspectionCheck t sda now).1, a.type = inspectionAlertType := by
  intro a ha
  cases hexp : t.inspectionStickerExpiry with
  | none => rw [inspectionCheck_absent t sda now hexp] at ha; simp at ha
  | some e =>
    by_cases hcl : isAlertClearedRecently t sda inspectionKey = true
    · rw [inspectionCheck_cleared t sda now e hexp hcl] at ha
      simp at ha
    · have hcl2 : isAlertClearedRecently t sda inspectionKey = false := by
        simpa using hcl
      by_cases h1 : ceilDiv (e - now) (1000 * 60 * 60 * 24) ≤ 0
      · obtain ⟨msg, heq⟩ := inspectionCheck_overdue t sda now e hexp hcl2 h1
        rw [heq] at ha
        simp at ha
        simp [ha]
      · by_cases h2 : ceilDiv (e - now) (1000 * 60 * 60 * 24) ≤ 30
        · obtain ⟨msg, heq⟩ :=
            inspectionCheck_dueSoon t sda now e hexp hcl2 (by omega) h2
          rw [heq] at ha
          simp at ha
          simp [ha]
        · rw [inspectionCheck_far t sda now e hexp (by omega)] at ha
          simp at ha

theorem oemsCheck_types (t : Truck) (sda now : Int) :
    ∀ a ∈ (oemsCheck t sda now).1, a.type = oemsAlertType := by
  intro a ha
  cases hexp : t.oemsInspectionExpiry with
  | none => rw [oemsCheck_absent t sda now hexp] at ha; simp at ha
  | some e =>
    by_cases hcl : isAlertClearedRecently t sda oemsInspectionKey = true
    · rw [oemsCheck_cleared t sda now e hexp hcl] at ha
      simp at ha
    · have hcl2 : isAlertClearedRecently t sda oemsInspectionKey = false := by
        simpa using hcl
      by_cases h1 : ceilDiv (e - now) (1000 * 60 * 60 * 24) ≤ 0
      · obtain ⟨msg, heq⟩ := oemsCheck_overdue t sda now e hexp hcl2 h1
        rw [heq] at ha
        simp at ha
        simp [ha]
      · by_cases h2 : ceilDiv (e - now) (1000 * 60 * 60 * 24) ≤ 30
        · obtain ⟨msg, heq⟩ :=
            oemsCheck_dueSoon t sda now e hexp hcl2 (by omega) h2
          rw [heq] at ha
          simp at ha
          simp [ha]
        · rw [oemsCheck_far t sda now e hexp (by omega)] at ha
          simp at ha

theorem brakeCheck_types (t : Truck) (sda : Int) (res : List Alert × Bool)
    (h : brakeCheck t sda = Except.ok res) :
    ∀ a ∈ res.1, a.type = brakeAlertType := by
  simp only [brakeCheck] at h
  split_ifs at h
  · cases hl : t.lastBrakeChangeMileage with
    | none => rw [hl] at h; cases h
    | some v => rw [hl] at h; cases h; simp
  · cases hl : t.lastBrakeChangeMileage with
    | none => rw [hl] at h; cases h
    | some v => rw [hl] at h; cases h; simp
  · cases h; simp

theorem tireCheck_types (t : Truck) (sda : Int) (res : List Alert × Bool)
    (h : tireCheck t sda = Except.ok res) :
    ∀ a ∈ res.1, a.type = tireAlertType := by
  simp only [tireCheck] at h
  split_ifs at h
  · cases hl : t.lastTireChangeMileage with
    | none => rw [hl] at h; cases h
    | some v => rw [hl] at h; cases h; simp
  · cases hl : t.lastTireChangeMileage with
    | none => rw [hl] at h; cases h
    | some v => rw [hl] at h; cases h; simp
  · cases h; simp

theorem oilCheck_types (t : Truck) (sda : Int) (res : List Alert × Bool)
    (h : oilCheck t sda = Except.ok res) :
    ∀ a ∈ res.1, a.type = oilAlertType := by
  simp only [oilCheck] at h
  split_ifs at h
  · cases hl : t.lastOilChangeMileage with
    | none => rw [hl] at h; cases h
    | some v => rw [hl] at h; cases h; simp
  · cases hl : t.lastOilChangeMileage with
    | none => rw [hl] at h; cases h
    | some v => rw [hl] at h; cases h; simp
  · cases h; simp

/-- Claim C5 counterexample: with the oil alert cleared exactly 7 days
(604800000 ms) before `now`, `now − cleared` does not exceed 7 days, so the
claim demands no alert; the code evaluates the rule (the gate compares with
a strict `cleared > sevenDaysAgo`) and reports the overdue oil alert. -/
theorem clearance_gate_boundary_counterexample :
    ¬ ((604800000 : Int) - 0 > 7 * 24 * 60 * 60 * 1000)
    ∧ kindPriorities (checkTruckAlerts
        { oilTruck 100000 105000 with alertsCleared := [(oilChangeKey, 0)] }
        604800000) oilAlertType = Except.ok [Priority.overdue] :=
  ⟨by decide, rfl⟩

/-- Claim C5 (corrected): the clearance gate suppresses a kind iff its
last-cleared timestamp exists and `now − cleared` is strictly less than
7 days; the rule is evaluated when the timestamp is absent or
`now − cleared ≥ 7 days` (at exactly 7 days the alert fires again).
Clearing at `T` still yields no oil alert at `T+6 days` with overdue
mileage and the alert again at `T+8 days`. -/
theorem clearance_gate_strict_window (t : Truck) (now : Int) (m : Nat)
    (c : Int)
    (hlast : t.lastOilChangeMileage = some m)
    (hover : m + 5000 ≤ t.mileage)
    (hcl : lookupCleared t.alertsCleared oilChangeKey = some c) :
    (∀ k ck, lookupCleared t.alertsCleared k = some ck →
      (isAlertClearedRecently t (sevenDaysAgoOf now) k = true ↔
        now - ck < 604800000))
    ∧ (now - c < 604800000 →
        oilCheck t (sevenDaysAgoOf now) = Except.ok ([], false))
    ∧ (604800000 ≤ now - c →
        ∃ msg, oilCheck t (sevenDaysAgoOf now) =
          Except.ok ([⟨oilAlertType, msg, Priority.overdue⟩], true)) := by
  refine ⟨?_, ?_, ?_⟩
  · intro k ck hk
    rw [isAlertClearedRecently_eq t _ k ck hk]
    simp only [sevenDaysAgoOf, decide_eq_true_eq]
    omega
  · intro h
    apply oilCheck_cleared
    rw [isAlertClearedRecently_eq t _ _ c hcl]
    simp only [sevenDaysAgoOf, decide_eq_true_eq]
    omega
  · intro h
    apply oilCheck_overdue t _ m hlast hover
    rw [isAlertClearedRecently_eq t _ _ c hcl]
    simp only [sevenDaysAgoOf, decide_eq_false_iff_not]
    omega

/-- Witness for `clearance_gate_strict_window`: clearing oil at time 0 for
an overdue truck suppresses the oil rule at `T+6 days` (518400000 ms) and
lets it fire again at `T+8 days` (691200000 ms). -/
theorem clearance_gate_strict_window_witness :
    oilCheck { oilTruck 100000 105000 with alertsCleared := [(oilChangeKey, 0)] }
      (sevenDaysAgoOf 518400000) = Except.ok ([], false)
    ∧ ∃ msg, oilCheck
        { oilTruck 100000 105000 with alertsCleared := [(oilChangeKey, 0)] }
        (sevenDaysAgoOf 691200000) =
        Except.ok ([⟨oilAlertType, msg, Priority.overdue⟩], true) :=
  ⟨(clearance_gate_strict_window
      { oilTruck 100000 105000 with alertsCleared := [(oilChangeKey, 0)] }
      518400000 100000 0 rfl (by decide) rfl).2.1 (by decide),
   (clearance_gate_strict_window
      { oilTruck 100000 105000 with alertsCleared := [(oilChangeKey, 0)] }
      691200000 100000 0 rfl (by decide) rfl).2.2 (by decide)⟩

/-- Claim C2 (code_bug): the evaluator does not survive an absent
`lastOilChangeMileage` when that rule fires: the threshold arithmetic
defaults the field to 0 (maximally overdue) but the alert message then
calls `.toLocaleString()` on the raw undefined field and throws, so the
evaluation returns an error instead of an alert set.  An absent
`expiryDate` is indeed skipped silently (second conjunct). -/
theorem evaluator_missing_field_behavior :
    checkTruckAlerts
      { baseTruck with mileage := 10000, lastOilChangeMileage := none } 0
      = Except.error jsUndefinedError
    ∧ kindPriorities (checkTruckAlerts
        { baseTruck with inspectionStickerExpiry := none,
                         oemsInspectionExpiry := none } 0)
        inspectionAlertType = Except.ok [] :=
  ⟨rfl, rfl⟩

theorem checkTruckAlerts_error4 {t : Truck} {now : Int}
    {a1 : List Alert} {o1 : Bool} {e4 : String}
    (h1 : oilCheck t (sevenDaysAgoOf now) = Except.ok (a1, o1))
    (h4 : brakeCheck t (sevenDaysAgoOf now) = Except.error e4) :
    checkTruckAlerts t now = Except.error e4 := by
  simp only [checkTruckAlerts, h1, h4]

theorem checkTruckAlerts_error5 {t : Truck} {now : Int}
    {a1 a4 : List Alert} {o1 o4 : Bool} {e5 : String}
    (h1 : oilCheck t (sevenDaysAgoOf now) = Except.ok (a1, o1))
    (h4 : brakeCheck t (sevenDaysAgoOf now) = Except.ok (a4, o4))
    (h5 : tireCheck t (sevenDaysAgoOf now) = Except.error e5) :
    checkTruckAlerts t now = Except.error e5 := by
  simp only [checkTruckAlerts, h1, h4, h5]

/-- Claim C8 (confirmed): with the test flag, the 7-day batch gate
(`lastMaintenanceAlertSent` within 7 days) is bypassed, but the per-kind
clearance gate is applied exactly as in a normal run: a kind cleared within
the last 7 days still reports no alert, and the test-mode pass is exactly
the gate-free evaluation of the same rule evaluator. -/
theorem test_mode_bypasses_batch_gate_only (t : Truck) (now lastSent c : Int)
    (hsent : t.lastMaintenanceAlertSent = some lastSent)
    (hrecent : sevenDaysAgoOf now < lastSent)
    (hcl : lookupCleared t.alertsCleared oilChangeKey = some c)
    (hclrecent : sevenDaysAgoOf now < c) :
    checkMaintenanceDue [t] false now = Except.ok []
    ∧ skippedByBatchGate t true (sevenDaysAgoOf now) = false
    ∧ (∀ al hov, checkTruckAlerts t now = Except.ok (al, hov) →
        alertsOfType al oilAlertType = [])
    ∧ checkMaintenanceDue [t] true now =
        (match checkTruckAlerts t now with
          | Except.error e => Except.error e
          | Except.ok (al, hov) =>
            if al.length > 0 ∨ t.status = outOfServiceStatus then
              Except.ok [⟨t, al, hov⟩]
            else Except.ok []) := by
  have hskip : skippedByBatchGate t false (sevenDaysAgoOf now) = true := by
    simp [skippedByBatchGate, hsent, hrecent]
  refine ⟨?_, ?_, ?_, ?_⟩
  · simp [checkMaintenanceDue, hskip]
  · simp [skippedByBatchGate]
  · intro al hov heval
    have hclr : isAlertClearedRecently t (sevenDaysAgoOf now) oilChangeKey
        = true := by
      rw [isAlertClearedRecently_eq t _ _ c hcl]
      simp [hclrecent]
    have hoil := oilCheck_cleared t (sevenDaysAgoOf now) hclr
    obtain ⟨a2, o2, h2⟩ : ∃ x y,
        inspectionCheck t (sevenDaysAgoOf now) now = (x, y) := ⟨_, _, rfl⟩
    obtain ⟨a3, o3, h3⟩ : ∃ x y,
        oemsCheck t (sevenDaysAgoOf now) now = (x, y) := ⟨_, _, rfl⟩
    rcases h4 : brakeCheck t (sevenDaysAgoOf now) with e4 | ⟨a4, o4⟩
    · rw [checkTruckAlerts_error4 hoil h4] at heval
      exact Except.noConfusion heval
    · rcases h5 : tireCheck t (sevenDaysAgoOf now) with e5 | ⟨a5, o5⟩
      · rw [checkTruckAlerts_error5 hoil h4 h5] at heval
        exact Except.noConfusion heval
      · rw [checkTruckAlerts_eq hoil h2 h3 h4 h5] at heval
        injection heval with hpair
        have hal : [] ++ a2 ++ a3 ++ a4 ++ a5 = al := congrArg Prod.fst hpair
        subst hal
        apply alertsOfType_eq_nil
        intro a ha
        simp only [List.nil_append, List.mem_append] at ha
        rcases ha with ((ha | ha) | ha) | ha
        · rw [inspectionCheck_types t (sevenDaysAgoOf now) now a
            (by rw [h2]; exact ha)]
          decide
        · rw [oemsCheck_types t (sevenDaysAgoOf now) now a
            (by rw [h3]; exact ha)]
          decide
        · rw [brakeCheck_types t (sevenDaysAgoOf now) (a4, o4) h4 a ha]
          decide
        · rw [tireCheck_types t (sevenDaysAgoOf now) (a5, o5) h5 a ha]
          decide
  · cases heval : checkTruckAlerts t now with
    | error e => simp [checkMaintenanceDue, skippedByBatchGate, heval]
    | ok p =>
      rcases p with ⟨al, hov⟩
      simp [checkMaintenanceDue, skippedByBatchGate, heval]

/-- Witness for `test_mode_bypasses_batch_gate_only`: a truck alerted and
oil-cleared one day ago is suppressed by the normal run but processed by a
test-mode run, in which the 7-day batch gate reports false. -/
theorem test_mode_bypasses_batch_gate_only_witness :
    checkMaintenanceDue
      [{ oilTruck 100000 105000 with
          alertsCleared := [(oilChangeKey, 0)],
          lastMaintenanceAlertSent := some 0 }] false 86400000 = Except.ok []
    ∧ skippedByBatchGate
      { oilTruck 100000 105000 with
          alertsCleared := [(oilChangeKey, 0)],
          lastMaintenanceAlertSent := some 0 } true
      (sevenDaysAgoOf 86400000) = false :=
  ⟨(test_mode_bypasses_batch_gate_only
      { oilTruck 100000 105000 with
          alertsCleared := [(oilChangeKey, 0)],
          lastMaintenanceAlertSent := some 0 }
      86400000 0 0 rfl (by decide) rfl (by decide)).1,
   (test_mode_bypasses_batch_gate_only
      { oilTruck 100000 105000 with
          alertsCleared := [(oilChangeKey, 0)],
          lastMaintenanceAlertSent := some 0 }
      86400000 0 0 rfl (by decide) rfl (by decide)).2.1⟩

/-- Claim C9 (confirmed): an out-of-service vehicle is included in the batch
even with zero threshold alerts, its digest section begins with the
synthetic out-of-service banner, inclusion is unaffected by the clearance
state, and the only gate on inclusion is the 7-day batch-send window. -/
theorem out_of_service_inclusion (t : Truck) (now : Int) (al : List Alert)
    (hov : Bool) (hoos : t.status = outOfServiceStatus)
    (heval : checkTruckAlerts t now = Except.ok (al, hov)) :
    (skippedByBatchGate t false (sevenDaysAgoOf now) = false →
      checkMaintenanceDue [t] false now = Except.ok [⟨t, al, hov⟩])
    ∧ (skippedByBatchGate t false (sevenDaysAgoOf now) = true →
      checkMaintenanceDue [t] false now = Except.ok [])
    ∧ (truckDigestEntries t al).head? = some (DigestEntry.outOfServiceBanner
        (jsStringOr t.outOfServiceReason noReasonSpecified))
    ∧ (∀ cs al2 hov2,
        checkTruckAlerts { t with alertsCleared := cs } now
          = Except.ok (al2, hov2) →
        skippedByBatchGate t false (sevenDaysAgoOf now) = false →
        checkMaintenanceDue [{ t with alertsCleared := cs }] false now
          = Except.ok [⟨{ t with alertsCleared := cs }, al2, hov2⟩]) := by
  refine ⟨?_, ?_, ?_, ?_⟩
  · intro hskip
    simp [checkMaintenanceDue, hskip, heval, hoos]
  · intro hskip
    simp [checkMaintenanceDue, hskip]
  · simp [truckDigestEntries, hoos]
  · intro cs al2 hov2 heval2 hskip
    have hskip2 : skippedByBatchGate { t with alertsCleared := cs } false
        (sevenDaysAgoOf now) = false := hskip
    have hoos2 : ({ t with alertsCleared := cs }).status
        = outOfServiceStatus := hoos
    simp [checkMaintenanceDue, hskip2, heval2, hoos2]
    exact fun _ => hoos

/-- All five alert kinds cleared at time `c`. -/
def allKindsClearedAt (c : Int) : List (String × Int) :=
  [(oilChangeKey, c), (inspectionKey, c), (oemsInspectionKey, c),
   (brakeChangeKey, c), (tireChangeKey, c)]

/-- Witness for `out_of_service_inclusion`: an out-of-service truck with no
threshold alerts is dispatched with the banner entry first, also when every
alert kind was cleared a moment ago. -/
theorem out_of_service_inclusion_witness :
    checkMaintenanceDue [{ baseTruck with status := outOfServiceStatus }]
      false 0 =
      Except.ok [⟨{ baseTruck with status := outOfServiceStatus }, [], false⟩]
    ∧ (truckDigestEntries { baseTruck with status := outOfServiceStatus }
        []).head? = some (DigestEntry.outOfServiceBanner noReasonSpecified)
    ∧ checkMaintenanceDue
        [{ baseTruck with status := outOfServiceStatus,
                          alertsCleared := allKindsClearedAt 0 }] false 0 =
      Except.ok [⟨{ baseTruck with status := outOfServiceStatus,
                                   alertsCleared := allKindsClearedAt 0 },
        [], false⟩] :=
  ⟨(out_of_service_inclusion { baseTruck with status := outOfServiceStatus }
      0 [] false rfl rfl).1 rfl,
   (out_of_service_inclusion { baseTruck with status := outOfServiceStatus }
      0 [] false rfl rfl).2.2.1,
   (out_of_service_inclusion { baseTruck with status := outOfServiceStatus }
      0 [] false rfl rfl).2.2.2 (allKindsClearedAt 0) [] false rfl rfl⟩

def truckOneId : String := "t1"

def wornNotes : String := "brakes inspected by hand, pads fine"

def emptyNotes : String := ""

def unavailableError : String := "unavailable"

/-- Claim C1 counterexample: with every accountability append failing, the
call surfaces a hard error, yet the store now carries
`alertsCleared[oilChange] = now`; evaluating the (overdue) truck afterwards
reports no oil alert, although before the failed clear it reported one —
so the system does not behave as if the call never happened. -/
theorem clearance_atomicity_counterexample :
    clearMaintenanceAlert ⟨[oilTruck 100000 105000], []⟩ truckOneId
        oilChangeKey wornNotes none 0 (fun _ => some unavailableError)
      = (Except.error (recordFailedPrefix ++ unavailableError),
         ⟨[{ oilTruck 100000 105000 with
              alertsCleared := [(oilChangeKey, 0)], updatedAt := 0,
              updatedBy := alertClearSystem }], []⟩)
    ∧ kindPriorities (checkTruckAlerts
        { oilTruck 100000 105000 with
            alertsCleared := [(oilChangeKey, 0)], updatedAt := 0,
            updatedBy := alertClearSystem } 0) oilAlertType = Except.ok []
    ∧ kindPriorities (checkTruckAlerts (oilTruck 100000 105000) 0)
        oilAlertType = Except.ok [Priority.overdue] :=
  ⟨rfl, rfl, rfl⟩

/-- Claim C1 (corrected): when the accountability append fails on all 3
attempts, `clearMaintenanceAlert` reports a hard error and appends nothing
to the maintenance log, but the clearance-state write is not rolled back:
`alertsCleared[kind]` remains set to the clear time on the stored truck, so
the alert stays suppressed for the next 7 days as if the clearance had
succeeded. -/
theorem clearance_state_write_persists_on_append_failure (s : ClearState)
    (truckId alertType notes : String) (userId : Option String) (now : Int)
    (af : Nat → Option String) (truckData : Truck) (e0 e1 e2 : String)
    (hfind : findTruck s.trucks truckId = some truckData)
    (h0 : af 0 = some e0) (h1 : af 1 = some e1) (h2 : af 2 = some e2) :
    (clearMaintenanceAlert s truckId alertType notes userId now af).1
      = Except.error (recordFailedPrefix ++ e2)
    ∧ (clearMaintenanceAlert s truckId alertType notes userId now
        af).2.maintenance = s.maintenance
    ∧ ∀ t ∈ (clearMaintenanceAlert s truckId alertType notes userId now
        af).2.trucks, t.id = truckId →
        lookupCleared t.alertsCleared alertType = some now := by
  simp only [clearMaintenanceAlert, hfind, h0, h1, h2]
  refine ⟨trivial, trivial, ?_⟩
  intro t ht htid
  rcases List.mem_map.mp ht with ⟨t0, ht0, rfl⟩
  by_cases h : t0.id = truckId
  · rw [if_pos h]
    exact lookupCleared_insertCleared_self _ _ _
  · rw [if_neg h] at htid
    exact absurd htid h

/-- Witness for `clearance_state_write_persists_on_append_failure`. -/
theorem clearance_state_write_persists_witness :
    (clearMaintenanceAlert ⟨[oilTruck 100000 105000], []⟩ truckOneId
        oilChangeKey wornNotes none 0 (fun _ => some unavailableError)).1
      = Except.error (recordFailedPrefix ++ unavailableError)
    ∧ (clearMaintenanceAlert ⟨[oilTruck 100000 105000], []⟩ truckOneId
        oilChangeKey wornNotes none 0
        (fun _ => some unavailableError)).2.maintenance = []
    ∧ lookupCleared ({ oilTruck 100000 105000 with
        alertsCleared := [(oilChangeKey, 0)], updatedAt := 0,
        updatedBy := alertClearSystem }).alertsCleared oilChangeKey
      = some 0 := by
  have H := clearance_state_write_persists_on_append_failure
    ⟨[oilTruck 100000 105000], []⟩ truckOneId oilChangeKey wornNotes none 0
    (fun _ => some unavailableError) (oilTruck 100000 105000)
    unavailableError unavailableError unavailableError rfl rfl rfl rfl
  exact ⟨H.1, H.2.1, H.2.2
    { oilTruck 100000 105000 with
        alertsCleared := [(oilChangeKey, 0)], updatedAt := 0,
        updatedBy := alertClearSystem } (by decide) rfl⟩

/-- Claim C4 counterexample: `clearMaintenanceAlert` called with an empty
justification succeeds and records the clearance — the workflow itself
performs no justification validation. -/
theorem empty_justification_counterexample :
    (clearMaintenanceAlert ⟨[oilTruck 100000 105000], []⟩ truckOneId
        oilChangeKey emptyNotes none 0 (fun _ => none)).1 = Except.ok ()
    ∧ (clearMaintenanceAlert ⟨[oilTruck 100000 105000], []⟩ truckOneId
        oilChangeKey emptyNotes none 0 (fun _ => none)).2
      = ⟨[{ oilTruck 100000 105000 with
            alertsCleared := [(oilChangeKey, 0)], updatedAt := 0,
            updatedBy := alertClearSystem }],
         [{ truckId := truckOneId,
            truckUnitNumber := (oilTruck 100000 105000).unitNumber,
            type := maintenanceTypeOther,
            description := clearedDescriptionPrefix ++
              alertTypeLabel oilChangeKey,
            date := 0, mileage := 105000, cost := 0,
            performedBy := alertClearPerformedBy,
            notes := dismissalNotesPrefix ++ emptyNotes,
            createdAt := 0, createdBy := alertClearSystem }]⟩ :=
  ⟨rfl, rfl⟩

/-- Claim C4 (corrected): the workflow does not reject an empty (or
whitespace-only) justification — it records the clearance regardless; the
emptiness check lives only in the caller UI (`ClearAlertModal`), which
refuses to submit when the trimmed notes are empty. -/
theorem workflow_accepts_empty_justification (s : ClearState)
    (truckId alertType : String) (userId : Option String) (now : Int)
    (af : Nat → Option String) (truckData : Truck)
    (hfind : findTruck s.trucks truckId = some truckData)
    (h0 : af 0 = none) :
    (clearMaintenanceAlert s truckId alertType emptyNotes userId now af).1
      = Except.ok ()
    ∧ (∀ t ∈ (clearMaintenanceAlert s truckId alertType emptyNotes userId
        now af).2.trucks, t.id = truckId →
        lookupCleared t.alertsCleared alertType = some now)
    ∧ clearAlertModalSubmit emptyNotes = none
    ∧ ∀ notes2 : String, jsTrim notes2 = "" →
        clearAlertModalSubmit notes2 = none := by
  refine ⟨?_, ?_, by decide, ?_⟩
  · simp only [clearMaintenanceAlert, hfind, h0]
  · simp only [clearMaintenanceAlert, hfind, h0]
    intro t ht htid
    rcases List.mem_map.mp ht with ⟨t0, ht0, rfl⟩
    by_cases h : t0.id = truckId
    · rw [if_pos h]
      exact lookupCleared_insertCleared_self _ _ _
    · rw [if_neg h] at htid
      exact absurd htid h
  · intro n hn
    simp [clearAlertModalSubmit, hn]

/-- Witness for `workflow_accepts_empty_justification`. -/
theorem workflow_accepts_empty_justification_witness :
    (clearMaintenanceAlert ⟨[oilTruck 100000 105000], []⟩ truckOneId
        oilChangeKey emptyNotes none 0 (fun _ => none)).1 = Except.ok ()
    ∧ clearAlertModalSubmit emptyNotes = none :=
  ⟨(workflow_accepts_empty_justification ⟨[oilTruck 100000 105000], []⟩
      truckOneId oilChangeKey none 0 (fun _ => none)
      (oilTruck 100000 105000) rfl rfl).1,
   (workflow_accepts_empty_justification ⟨[oilTruck 100000 105000], []⟩
      truckOneId oilChangeKey none 0 (fun _ => none)
      (oilTruck 100000 105000) rfl rfl).2.2.1⟩

/-- The frame relation between a truck before and after
`clearMaintenanceAlert(truckId, alertType, ...)` at time `now`: every
maintenance-data field is preserved, cleared timestamps of other kinds are
preserved, the cleared kind is stamped with `now` on the target truck, and
any other truck is untouched. -/
def clearFrame (truckId alertType : String) (now : Int)
    (t1 t2 : Truck) : Prop :=
  t2.id = t1.id ∧ t2.unitNumber = t1.unitNumber ∧ t2.status = t1.status ∧
  t2.outOfServiceReason = t1.outOfServiceReason ∧ t2.mileage = t1.mileage ∧
  t2.lastOilChange = t1.lastOilChange ∧
  t2.lastOilChangeMileage = t1.lastOilChangeMileage ∧
  t2.inspectionStickerExpiry = t1.inspectionStickerExpiry ∧
  t2.oemsInspectionExpiry = t1.oemsInspectionExpiry ∧
  t2.lastBrakeChange = t1.lastBrakeChange ∧
  t2.lastBrakeChangeMileage = t1.lastBrakeChangeMileage ∧
  t2.lastTireChange = t1.lastTireChange ∧
  t2.lastTireChangeMileage = t1.lastTireChangeMileage ∧
  t2.lastMaintenanceAlertSent = t1.lastMaintenanceAlertSent ∧
  (∀ k2, k2 ≠ alertType →
    lookupCleared t2.alertsCleared k2 = lookupCleared t1.alertsCleared k2) ∧
  (t1.id = truckId →
    lookupCleared t2.alertsCleared alertType = some now) ∧
  (t1.id ≠ truckId → t2 = t1)

/-- Claim C10 (confirmed): a successful `clearMaintenanceAlert` merges the
new kind into the existing `alertsCleared` map, preserving the cleared
timestamps of all other kinds, modifies no maintenance-data field of the
vehicle record, and leaves every other vehicle untouched (`updatedAt` and
`updatedBy` are the only other fields written). -/
theorem clear_frame_effect (s : ClearState)
    (truckId alertType notes : String) (userId : Option String) (now : Int)
    (af : Nat → Option String)
    (huniq : ∀ t1 ∈ s.trucks, ∀ t2 ∈ s.trucks, t1.id = t2.id → t1 = t2)
    (hok : (clearMaintenanceAlert s truckId alertType notes userId
      now af).1 = Except.ok ()) :
    List.Forall₂ (clearFrame truckId alertType now) s.trucks
      (clearMaintenanceAlert s truckId alertType notes userId
        now af).2.trucks := by
  cases hfind : findTruck s.trucks truckId with
  | none =>
    simp only [clearMaintenanceAlert, hfind] at hok
    exact Except.noConfusion hok
  | some truckData =>
    have hmem : truckData ∈ s.trucks := List.mem_of_find?_eq_some hfind
    have hid : truckData.id = truckId := by
      have h := List.find?_some hfind
      simpa using h
    have htrucks : (clearMaintenanceAlert s truckId alertType notes userId
        now af).2.trucks = s.trucks.map (fun t =>
          if t.id = truckId then
            { t with
                alertsCleared :=
                  insertCleared truckData.alertsCleared alertType now,
                updatedAt := now,
                updatedBy := userId.getD alertClearSystem }
          else t) := by
      simp only [clearMaintenanceAlert, hfind]
      cases af 0 with
      | none => rfl
      | some e0 =>
        cases af 1 with
        | none => rfl
        | some e1 =>
          cases af 2 with
          | none => rfl
          | some e2 => rfl
    rw [htrucks, List.forall₂_map_right_iff, List.forall₂_same]
    intro t ht
    by_cases h : t.id = truckId
    · rw [if_pos h]
      have heq : t = truckData := huniq t ht truckData hmem (by rw [h, hid])
      refine ⟨rfl, rfl, rfl, rfl, rfl, rfl, rfl, rfl, rfl, rfl, rfl, rfl,
        rfl, rfl, ?_, ?_, ?_⟩
      · intro k2 hk2
        show lookupCleared (insertCleared truckData.alertsCleared alertType
          now) k2 = lookupCleared t.alertsCleared k2
        rw [lookupCleared_insertCleared_ne _ _ _ _ hk2, heq]
      · intro _
        exact lookupCleared_insertCleared_self _ _ _
      · intro hne
        exact absurd h hne
    · rw [if_neg h]
      refine ⟨rfl, rfl, rfl, rfl, rfl, rfl, rfl, rfl, rfl, rfl, rfl, rfl,
        rfl, rfl, fun _ _ => rfl, fun htid => absurd htid h, fun _ => rfl⟩

/-- Witness for `clear_frame_effect`. -/
theorem clear_frame_effect_witness :
    List.Forall₂ (clearFrame truckOneId oilChangeKey 0)
      [oilTruck 100000 105000]
      (clearMaintenanceAlert ⟨[oilTruck 100000 105000], []⟩ truckOneId
        oilChangeKey wornNotes none 0 (fun _ => none)).2.trucks :=
  clear_frame_effect ⟨[oilTruck 100000 105000], []⟩ truckOneId oilChangeKey
    wornNotes none 0 (fun _ => none)
    (by
      intro t1 h1 t2 h2 _
      simp only [List.mem_singleton] at h1 h2
      rw [h1, h2])
    rfl

def apiKeyStub : String := "key"

def channelError422 : String := "MailerSend API error 422"

def messageIdStub : String := "msg-1"

def thirdRecipientEmail : String := "tw4001@aol.com"

def thirdRecipient : Recipient := ⟨thirdRecipientEmail, "Trish Watson"⟩

/-- A channel on which only the third recipient of the fixed list fails. -/
def failingThirdChannel : String → Except String String :=
  fun toEmail =>
    if toEmail = thirdRecipientEmail then Except.error channelError422
    else Except.ok messageIdStub

theorem flattenEqNil {α : Type} (ls : List (List α))
    (h : ∀ l ∈ ls, l = []) : ls.flatten = [] := by
  induction ls with
  | nil => rfl
  | cons x rest ih =>
    rw [List.flatten_cons, h x (List.mem_cons_self _ _), List.nil_append]
    exact ih (fun l hl => h l (List.mem_cons_of_mem _ hl))

/-- Claim C3 counterexample: dispatching one overdue truck while recipient
3 of 5 fails leaves the suppression state untouched and the other four
channel calls succeed, but the surfaced outcome is a single overall error
(the HTTP 500 path) that carries no per-recipient rejected list at all, so
the failing recipient is not reported as rejected. -/
theorem dispatcher_partial_failure_counterexample :
    (sendMaintenanceAlert [oilTruck 100000 105000] false 0 apiKeyStub
        failingThirdChannel).1 = Except.error channelError422
    ∧ (sendMaintenanceAlert [oilTruck 100000 105000] false 0 apiKeyStub
        failingThirdChannel).2 = [oilTruck 100000 105000]
    ∧ deliveredRecipients failingThirdChannel
      = (recipients.map (fun r => r.email)).erase thirdRecipientEmail :=
  ⟨rfl, rfl, rfl⟩

/-- Claim C3 (corrected): when any recipient send fails, the other channel
calls are unaffected (delivery to a recipient depends only on its own
call), and the suppression state (`lastMaintenanceAlertSent`) is left
unchanged for every vehicle; but the failing recipient is not reported in
a rejected list — the dispatch surfaces one overall error with no
per-recipient outcome, and the rejected list of any successful response is
always empty. -/
theorem dispatcher_failure_surfaces_single_error (trucks : List Truck)
    (testMode : Bool) (now : Int) (apiKey : String)
    (channel : String → Except String String)
    (included : List TruckWithAlerts) (bad : Recipient) (e : String)
    (hchk : checkMaintenanceDue trucks testMode now = Except.ok included)
    (hne : included.length ≠ 0)
    (hbad : bad ∈ recipients)
    (hfail : channel bad.email = Except.error e) :
    (∃ e2, (sendMaintenanceAlert trucks testMode now apiKey channel).1
      = Except.error e2)
    ∧ (sendMaintenanceAlert trucks testMode now apiKey channel).2 = trucks
    ∧ (∀ trucks2 tm2 now2 k2 ch2 resp,
        (sendMaintenanceAlert trucks2 tm2 now2 k2 ch2).1
          = Except.ok (some resp) → resp.rejected = []) := by
  obtain ⟨e3, hs3⟩ := sendWithMailerSend_error_of_channel apiKey
    fromEmailAddress bad.email (maintenanceSubjectFor included.length)
    channel e hfail
  have hmm : sendWithMailerSend apiKey fromEmailAddress bad.email
      (maintenanceSubjectFor included.length) channel ∈
      recipients.map (fun r => sendWithMailerSend apiKey fromEmailAddress
        r.email (maintenanceSubjectFor included.length) channel) :=
    List.mem_map_of_mem _ hbad
  obtain ⟨e2, hpa⟩ := promiseAll_error_of_mem _ e3 _ hmm hs3
  refine ⟨⟨e2, ?_⟩, ?_, ?_⟩
  · simp only [sendMaintenanceAlert, hchk]
    rw [if_neg hne, hpa]
  · simp only [sendMaintenanceAlert, hchk]
    rw [if_neg hne, hpa]
  · intro trucks2 tm2 now2 k2 ch2 resp h
    rcases hc : checkMaintenanceDue trucks2 tm2 now2 with ec | inc2
    · simp only [sendMaintenanceAlert, hc] at h
      exact Except.noConfusion h
    · simp only [sendMaintenanceAlert, hc] at h
      by_cases hlen : inc2.length = 0
      · rw [if_pos hlen] at h
        exact Option.noConfusion (Except.ok.inj h)
      · rw [if_neg hlen] at h
        rcases hpa2 : promiseAll (recipients.map (fun r =>
            sendWithMailerSend k2 fromEmailAddress r.email
              (maintenanceSubjectFor inc2.length) ch2)) with epa | results
        · rw [hpa2] at h
          exact Except.noConfusion h
        · rw [hpa2] at h
          have hresp := Option.some.inj (Except.ok.inj h)
          rw [← hresp]
          show (results.map (fun r => r.rejected)).flatten = []
          apply flattenEqNil
          intro l hl
          rcases List.mem_map.mp hl with ⟨r, hr, rfl⟩
          have hx := promiseAll_ok_mem _ results hpa2 r hr
          rcases List.mem_map.mp hx with ⟨rec, hrec, heq⟩
          exact sendWithMailerSend_rejected_empty _ _ _ _ _ r heq

/-- Witness for `dispatcher_failure_surfaces_single_error`. -/
theorem dispatcher_failure_surfaces_single_error_witness :
    (∃ e2, (sendMaintenanceAlert [oilTruck 100000 105000] false 0
        apiKeyStub failingThirdChannel).1 = Except.error e2)
    ∧ (sendMaintenanceAlert [oilTruck 100000 105000] false 0 apiKeyStub
        failingThirdChannel).2 = [oilTruck 100000 105000] := by
  have H := dispatcher_failure_surfaces_single_error
    [oilTruck 100000 105000] false 0 apiKeyStub failingThirdChannel
    _ thirdRecipient channelError422 rfl (by decide) (by decide) rfl
  exact ⟨H.1, H.2.1⟩
